import Mathlib

/-!
Verification of the profiles.sh persona computation engine.

This file gives a shallow embedding of the deterministic engine found in
src/lib/engine (scoring.ts, personas.ts, interests.ts, projects.ts,
experience.ts, index.ts) and proves properties of it.

Modelling conventions:
- JavaScript numbers are modelled by exact rationals; scores in the engine
  are finite sums of the constants 2, 3, 1.5 and 1, so no floating point
  rounding is observable at the scale of these computations.
- JavaScript strings are Lean strings; all string operations used by the
  engine (toLowerCase, includes, split, charAt/toUpperCase) are re-defined
  below by structural recursion on the character list so that every
  definition evaluates inside the kernel.
- A JavaScript object used as a string-keyed map with a fixed key set
  (the score vectors) is modelled as an association list in insertion
  order; Object.entries is then the list itself.
- Array.prototype.sort with a consistent comparator is a stable sort
  consistent with that comparator; it is modelled by insertion sort
  (List.insertionSort), which is exactly such a sort.
- The host clock and date parser (new Date().getFullYear() and
  new Date(s).getFullYear()) are modelled by explicit parameters
  currentYear and parseYear; a malformed date yields NaN in JavaScript,
  modelled by parseYear returning none, and NaN propagation through
  subtraction, comparison and string concatenation is reproduced by the
  jsAgeGT and jsIntToString helpers.
-/

/-! ## JavaScript string primitives, modelled structurally -/

/-- Model of JavaScript String.prototype.toLowerCase for the ASCII data of
the engine catalog. -/
def toLowerStr (s : String) : String := ⟨s.data.map Char.toLower⟩

/-- Boolean prefix test on character lists. -/
def isPrefixB : List Char → List Char → Bool
  | [], _ => true
  | _ :: _, [] => false
  | a :: as, b :: bs => a == b && isPrefixB as bs

/-- Boolean contiguous-substring test on character lists. -/
def isInfixB (needle : List Char) : List Char → Bool
  | [] => needle.isEmpty
  | c :: rest => isPrefixB needle (c :: rest) || isInfixB needle rest

/-- Model of JavaScript haystack.includes(needle). -/
def jsIncludes (hay needle : String) : Bool := isInfixB needle.data hay.data

/-- Split a character list at every occurrence of the separator character,
as JavaScript String.prototype.split does with a one-character separator. -/
def splitOnChar (c : Char) : List Char → List (List Char)
  | [] => [[]]
  | x :: xs =>
    let r := splitOnChar c xs
    if x == c then [] :: r
    else
      match r with
      | [] => [[x]]
      | y :: ys => (x :: y) :: ys

/-- Model of full_name.split("/"). -/
def jsSplitSlash (s : String) : List String := (splitOnChar '/' s.data).map (fun l => ⟨l⟩)

/-- Model of full_name.split("/")[1] in a position where an undefined entry
is later coerced to the empty string (Array.prototype.join). -/
def shortNameOrEmpty (full : String) : String := (jsSplitSlash full).getD 1 ""

/-- Model of full_name.split("/")[1] || full_name. -/
def shortNameOrFull (full : String) : String :=
  let sn := (jsSplitSlash full).getD 1 ""
  if sn = "" then full else sn

/-- Model of s.charAt(0).toUpperCase() + s.slice(1). -/
def capitalizeFirst (s : String) : String :=
  match s.data with
  | [] => ""
  | c :: rest => ⟨Char.toUpper c :: rest⟩

/-- Model of Array.prototype.join(sep). -/
def joinSep (sep : String) : List String → String
  | [] => ""
  | [x] => x
  | x :: y :: ys => x ++ sep ++ joinSep sep (y :: ys)

/-- Model of the JavaScript string-or idiom `x || d` on a nullable string:
null and the empty string are falsy. -/
def jsOrStr (o : Option String) (d : String) : String :=
  match o with
  | none => d
  | some s => if s = "" then d else s

/-- JavaScript truthiness of a nullable string. -/
def strTruthy (o : Option String) : Bool :=
  match o with
  | none => false
  | some s => !(s == "")

/-- Template-literal rendering of an integer that may be NaN
(modelled as none). -/
def jsIntToString : Option ℤ → String
  | none => "NaN"
  | some a => toString a

/-! ## Stable sorting

The engine sorts with comparators of the shape (a, b) => b.key - a.key,
i.e. a stable sort by one numeric key, descending. -/

/-- Stable descending sort by a numeric key, the model of
Array.prototype.sort((a, b) => key(b) - key(a)). -/
def sortByDesc {α : Type} {β : Type} [LinearOrder β] (key : α → β) (l : List α) : List α :=
  List.insertionSort (fun a b => key b ≤ key a) l

/-! ## Repository and profile records (src/lib/engine/scoring.ts, personas.ts) -/

/-- RepoData from scoring.ts. -/
structure RepoData where
  full_name : String
  language : Option String
  topics : List String
  description : Option String
  stargazers_count : Option ℕ := none
  forks_count : Option ℕ := none
  html_url : Option String := none
deriving DecidableEq

/-- GithubProfile from personas.ts (only the fields the engine reads). -/
structure GithubProfile where
  login : String
  name : Option String
  email : Option String
  location : Option String
  bio : Option String
  blog : Option String
  company : Option String
  avatar_url : String
  followers : ℕ
  following : ℕ
  public_repos : ℕ
  created_at : String
deriving DecidableEq

/-! ## Domain signal catalog (src/lib/engine/domain-signals.ts) -/

/-- DomainSignal from domain-signals.ts. -/
structure DomainSignal where
  languages : List String
  topics : List String
  descriptionKeywords : List String
deriving DecidableEq

/-- The "systems" entry of DOMAIN_SIGNALS. -/
def systemsSignals : DomainSignal := {
  languages := ["C", "C++", "Rust", "Assembly", "Zig"],
  topics := [
    "kernel", "systems-programming", "embedded", "bare-metal", "systemd",
    "operating-system", "os", "hypervisor", "virtualization", "qemu",
    "kvm", "proxmox", "esxi", "zfs", "filesystem", "database",
    "postgresql", "performance", "profiling", "ebpf", "io-uring",
    "memory-management", "real-time", "driver", "firmware"],
  descriptionKeywords := [
    "kernel", "syscall", "bare metal", "hypervisor",
    "low-level", "systems", "performance", "database",
    "postgresql", "embedded", "firmware"] }

/-- The "platform" entry of DOMAIN_SIGNALS. -/
def platformSignals : DomainSignal := {
  languages := ["HCL", "Jsonnet", "Starlark", "Dhall"],
  topics := [
    "kubernetes", "k8s", "helm", "terraform", "ansible", "pulumi",
    "docker", "container", "ci-cd", "github-actions", "gitlab-ci",
    "jenkins", "argocd", "gitops", "infrastructure-as-code", "iac",
    "devops", "cdk", "cloudformation", "deployment", "pipeline",
    "buildpack", "nix", "nixos", "guix", "buildroot"],
  descriptionKeywords := [
    "deploy", "pipeline", "infrastructure", "orchestrat",
    "ci/cd", "gitops", "provisioning", "automation",
    "kubernetes", "helm", "terraform"] }

/-- The "software" entry of DOMAIN_SIGNALS. -/
def softwareSignals : DomainSignal := {
  languages := [
    "TypeScript", "JavaScript", "Rust", "Go", "Python", "Ruby",
    "Java", "Kotlin", "Swift", "Scala", "Elixir", "Haskell",
    "OCaml", "F#", "Clojure"],
  topics := [
    "framework", "library", "sdk", "api", "web-framework", "orm",
    "testing", "compiler", "language", "parser", "ast", "wasm",
    "webassembly", "full-stack", "backend", "frontend", "react",
    "vue", "svelte", "solid", "angular", "nextjs", "nuxt", "astro",
    "bun", "deno", "node", "runtime"],
  descriptionKeywords := [
    "framework", "library", "compiler", "runtime",
    "programming language", "web app", "full-stack",
    "frontend", "backend", "api"] }

/-- The "cloud" entry of DOMAIN_SIGNALS. -/
def cloudSignals : DomainSignal := {
  languages := [],
  topics := [
    "aws", "gcp", "azure", "cloudflare", "cloud", "serverless",
    "lambda", "edge", "cdn", "load-balancer", "vpn", "wireguard",
    "networking", "multi-cloud", "hybrid-cloud", "cloud-native",
    "saas", "paas", "iaas", "s3", "r2", "workers"],
  descriptionKeywords := [
    "cloud", "aws", "serverless", "edge", "cdn",
    "distributed", "multi-cloud", "cloudflare",
    "scalable", "load balanc", "vpn", "tunnel"] }

/-- The "linux" entry of DOMAIN_SIGNALS. -/
def linuxSignals : DomainSignal := {
  languages := ["Shell", "Bash", "Nushell", "Fish", "Zsh", "Nix"],
  topics := [
    "linux", "unix", "shell", "bash", "zsh", "fish", "nushell",
    "terminal", "cli", "tui", "dotfiles", "rice", "ricing",
    "hyprland", "wayland", "sway", "i3", "window-manager", "wm",
    "desktop-environment", "gtk", "systemd", "arch", "debian",
    "ubuntu", "alpine", "nixos", "gentoo", "freebsd"],
  descriptionKeywords := [
    "linux", "terminal", "shell", "command-line", "cli",
    "tui", "dotfiles", "window manager", "wayland",
    "hyprland", "nushell", "systemd", "desktop"] }

/-- The "solutions" entry of DOMAIN_SIGNALS. -/
def solutionsSignals : DomainSignal := {
  languages := [],
  topics := [
    "documentation", "technical-writing", "api-design", "openapi",
    "json-schema", "graphql", "rest", "grpc", "protobuf",
    "architecture", "design-patterns", "microservices", "ddd",
    "event-driven", "cqrs", "consulting"],
  descriptionKeywords := [
    "documentation", "api design", "architecture",
    "pattern", "microservice", "schema", "openapi",
    "specification", "integration", "workflow"] }

/-- The "sre" entry of DOMAIN_SIGNALS. -/
def sreSignals : DomainSignal := {
  languages := [],
  topics := [
    "monitoring", "observability", "grafana", "prometheus", "alerting",
    "incident", "sre", "reliability", "uptime", "chaos-engineering",
    "load-testing", "benchmark", "tracing", "logging", "elk",
    "datadog", "newrelic", "pagerduty", "on-call", "runbook",
    "security", "vulnerability", "cve", "penetration-testing",
    "zero-trust", "authentication", "oauth", "sso"],
  descriptionKeywords := [
    "monitoring", "observability", "reliability",
    "incident", "alert", "uptime", "chaos", "security",
    "vulnerability", "penetration", "zero-trust",
    "authentication"] }

/-- The "tinkerer" entry of DOMAIN_SIGNALS. -/
def tinkererSignals : DomainSignal := {
  languages := [],
  topics := [
    "side-project", "experiment", "prototype", "hack", "maker",
    "iot", "raspberry-pi", "arduino", "fpga", "3d-printing",
    "e-ink", "eink", "hardware", "robotics", "generative-art",
    "creative-coding", "procedural", "hobby", "weekend-project",
    "ai", "machine-learning", "llm", "gpt", "embeddings",
    "vector-database", "semantic-search", "ai-agent", "ai-coding",
    "stable-diffusion", "image-generation"],
  descriptionKeywords := [
    "experiment", "prototype", "toy", "hobby",
    "weekend", "fun", "hack", "tinkering", "ai",
    "llm", "embedding", "semantic", "machine learning",
    "agent", "generative"] }

/-- The "hacker" entry of DOMAIN_SIGNALS. -/
def hackerSignals : DomainSignal := {
  languages := ["Vim Script", "Lua", "Vimscript"],
  topics := [
    "neovim", "vim", "nvim", "editor", "ide", "terminal-emulator",
    "tmux", "zellij", "screen", "ghostty", "alacritty", "kitty",
    "wezterm", "helix", "kakoune", "emacs", "dotfiles",
    "command-line", "old-school", "retro", "vintage", "browser",
    "web-browser", "rss", "feed-reader", "bookmarks"],
  descriptionKeywords := [
    "neovim", "vim", "editor", "terminal", "browser",
    "old school", "retro", "hacker", "rss", "feed",
    "bookmark", "knowledge"] }

/-- DOMAIN_SIGNALS from domain-signals.ts, in source (insertion) order. -/
def DOMAIN_SIGNALS : List (String × DomainSignal) := [
  ("systems", systemsSignals),
  ("platform", platformSignals),
  ("software", softwareSignals),
  ("cloud", cloudSignals),
  ("linux", linuxSignals),
  ("solutions", solutionsSignals),
  ("sre", sreSignals),
  ("tinkerer", tinkererSignals),
  ("hacker", hackerSignals)]

/-! ## Repo scoring (src/lib/engine/scoring.ts) -/

/-- Language match test of the scoring loop. -/
def langMatches (signals : DomainSignal) (lang : String) : Bool :=
  signals.languages.any (fun l => toLowerStr l == lang)

/-- One repo topic matches one catalog topic: bidirectional substring
containment, t.includes(st) || st.includes(t). -/
def codeTopicMatch (t st : String) : Bool := jsIncludes t st || jsIncludes st t

/-- Number of (lowercased) repo topics that match some catalog topic. -/
def topicMatchCount (signals : DomainSignal) (topics : List String) : ℕ :=
  (topics.filter (fun t => signals.topics.any (fun st => codeTopicMatch t st))).length

/-- Number of catalog keywords contained in the given lowercased text;
used by the engine both for descriptions and for repository names. -/
def descMatchCount (signals : DomainSignal) (text : String) : ℕ :=
  (signals.descriptionKeywords.filter (fun kw => jsIncludes text kw)).length

/-- Per-repo per-domain score of the loop body in computeDomainScores:
language +2, topic +3 each, description keyword +1.5 each, name keyword
+1 each, the name being the full lowercased full_name. -/
def repoScoreFor (signals : DomainSignal) (repo : RepoData) : ℚ :=
  let lang := toLowerStr (jsOrStr repo.language "")
  let topics := repo.topics.map toLowerStr
  let desc := toLowerStr (jsOrStr repo.description "")
  let name := toLowerStr repo.full_name
  (if langMatches signals lang then 2 else 0)
    + (topicMatchCount signals topics : ℚ) * 3
    + (descMatchCount signals desc : ℚ) * 1.5
    + (descMatchCount signals name : ℚ) * 1

/-- Per-repo per-domain score used by the helpers of personas.ts and
projects.ts: language, topics and description only (no name term). -/
def repoScoreNoName (signals : DomainSignal) (repo : RepoData) : ℚ :=
  let lang := toLowerStr (jsOrStr repo.language "")
  let topics := repo.topics.map toLowerStr
  let desc := toLowerStr (jsOrStr repo.description "")
  (if langMatches signals lang then 2 else 0)
    + (topicMatchCount signals topics : ℚ) * 3
    + (descMatchCount signals desc : ℚ) * 1.5

/-- computeDomainScores from scoring.ts.  The two accumulation loops (stars
at weight 1, then owned repos at weight 3) are rendered as summations; the
resulting record, keyed by the domains in catalog insertion order, is the
association list. -/
def computeDomainScores (stars ownedRepos : List RepoData) : List (String × ℚ) :=
  DOMAIN_SIGNALS.map (fun ds =>
    (ds.1, (stars.map (repoScoreFor ds.2)).sum
      + (ownedRepos.map (fun r => repoScoreFor ds.2 r * 3)).sum))

/-- Math.max over a list of values; none models the -Infinity produced by
Math.max() on an empty spread. -/
def jsMaxList : List ℚ → Option ℚ
  | [] => none
  | x :: xs => some (xs.foldl max x)

/-- Math.round: half-up rounding toward positive infinity. -/
def jsRound (x : ℚ) : ℚ := ((⌊x + 1/2⌋ : ℤ) : ℚ)

/-- normalizeToRadar from scoring.ts. -/
def normalizeToRadar (scores : List (String × ℚ)) : List (String × ℚ) :=
  match jsMaxList (scores.map Prod.snd) with
  | none => scores
  | some m =>
    if m = 0 then scores
    else scores.map (fun e => (e.1, if 0 < e.2 then jsRound (40 + e.2 / m * 60) else 0))

/-! ## Persona activation (src/lib/engine/personas.ts) -/

/-- PERSONA_THRESHOLD from personas.ts. -/
def PERSONA_THRESHOLD : ℚ := 45

/-- ActivePersona from personas.ts. -/
structure ActivePersona where
  persona_id : String
  confidence : ℚ
  sort_order : ℕ
deriving DecidableEq

/-- determinePersonas from personas.ts: keep the entries at or above the
threshold, stable-sort them by score descending, and index the result. -/
def determinePersonas (normalizedScores : List (String × ℚ)) : List ActivePersona :=
  ((sortByDesc (fun e => e.2)
      (normalizedScores.filter (fun e => decide (PERSONA_THRESHOLD ≤ e.2)))).enum).map
    (fun p => ⟨p.2.1, p.2.2 / 100, p.1⟩)

/-! ## Persona templates and card generation (src/lib/engine/personas.ts) -/

/-- PersonaTemplate from personas.ts. -/
structure PersonaTemplate where
  title : String
  titlePrefixes : List String
  taglines : List String
  icon : String
  accentColor : String
  bgGradient : String
  statLabels : List String
  stackPool : List String
deriving DecidableEq

/-- PERSONA_TEMPLATES from personas.ts, in source insertion order.
Apostrophes inside taglines are written with the unicode escape u0027. -/
def PERSONA_TEMPLATES : List (String × PersonaTemplate) := [
  ("systems", {
    title := "Systems Engineer",
    titlePrefixes := ["Principal", "Senior", "Staff", "Lead"],
    taglines := [
      "I speak fluent syscall.",
      "Closer to the metal than your bootloader.",
      "The kernel whisperer."],
    icon := "⚙️",
    accentColor := "#4A90D9",
    bgGradient := "linear-gradient(135deg, #0a1628 0%, #132744 100%)",
    statLabels := ["Architecture", "Debugging", "Scale", "Uptime"],
    stackPool := [
      "Linux", "systemd", "PostgreSQL", "ZFS", "Bare Metal",
      "Kernel Tuning", "Proxmox", "QEMU", "KVM", "InfiniBand",
      "NVMe", "io_uring", "eBPF", "Zig", "C"] }),
  ("platform", {
    title := "Platform Engineer",
    titlePrefixes := ["Staff", "Senior", "Principal", "Lead"],
    taglines := [
      "Your deploy pipeline is my canvas.",
      "Infrastructure as Code, chaos as a service.",
      "I automate the automators."],
    icon := "🔗",
    accentColor := "#7C4DFF",
    bgGradient := "linear-gradient(135deg, #1a0a2e 0%, #2d1b4e 100%)",
    statLabels := ["Pipelines", "Automation", "Tooling", "DX"],
    stackPool := [
      "Kubernetes", "Helm", "Terraform", "Ansible", "Docker",
      "GitLab CI/CD", "GitHub Actions", "AWS CDK", "Pulumi",
      "ArgoCD", "Nix", "Buildroot"] }),
  ("software", {
    title := "Software Engineer",
    titlePrefixes := ["Staff", "Senior", "Principal", "Full Stack"],
    taglines := [
      "Types are a love language.",
      "I write code that writes code.",
      "Compilers fear me, runtimes love me."],
    icon := "λ",
    accentColor := "#00E676",
    bgGradient := "linear-gradient(135deg, #0a1a0f 0%, #132e1a 100%)",
    statLabels := ["Backend", "Frontend", "Systems", "Unix Phil."],
    stackPool := [] }),
  ("cloud", {
    title := "Cloud Architect",
    titlePrefixes := ["Principal", "Senior", "Lead", "Staff"],
    taglines := [
      "The cloud is just someone else\u0027s bare metal.",
      "Distributed by design, resilient by nature.",
      "Multi-cloud native, single-cloud fluent."],
    icon := "☁️",
    accentColor := "#40C4FF",
    bgGradient := "linear-gradient(135deg, #071825 0%, #0d2b45 100%)",
    statLabels := ["Design", "Security", "Scale", "Vision"],
    stackPool := [
      "AWS", "Cloudflare", "GCP", "Azure", "EKS", "Lambda",
      "Workers", "Multi-cloud", "VPN", "WireGuard", "E2E Encryption",
      "Serverless", "CDN", "Edge"] }),
  ("linux", {
    title := "Linux Enthusiast",
    titlePrefixes := ["Crazy", "Passionate", "Devoted", "Obsessive"],
    taglines := [
      "btw, I use Linux.",
      "I don\u0027t use Linux. Linux uses me.",
      "Have you heard about our lord and savior, Tux?"],
    icon := "🐧",
    accentColor := "#FFEB3B",
    bgGradient := "linear-gradient(135deg, #1a1800 0%, #2e2a05 100%)",
    statLabels := ["Passion", "Shell", "systemd", "Evangelism"],
    stackPool := [] }),
  ("solutions", {
    title := "Solutions Engineer",
    titlePrefixes := ["Principal", "Senior", "Lead"],
    taglines := [
      "I translate between humans and machines.",
      "The bridge between what you want and what\u0027s possible.",
      "Architecture is a conversation."],
    icon := "🌉",
    accentColor := "#FF9800",
    bgGradient := "linear-gradient(135deg, #1a1005 0%, #2e1f0a 100%)",
    statLabels := ["Communication", "Problem Solving", "Empathy", "Breadth"],
    stackPool := [
      "OpenAPI", "JSON Schema", "REST", "GraphQL", "gRPC",
      "CQRS", "Event-Driven", "Microservices", "Service Mesh"] }),
  ("sre", {
    title := "SRE",
    titlePrefixes := ["Principal", "Senior", "Staff", "Lead"],
    taglines := [
      "Sleep is for the well-monitored.",
      "Uptime is a lifestyle, not a metric.",
      "I break things professionally, so production doesn\u0027t."],
    icon := "📟",
    accentColor := "#FF5252",
    bgGradient := "linear-gradient(135deg, #1a0505 0%, #2e0f0f 100%)",
    statLabels := ["Reliability", "Incident Mgmt", "Observability", "Automation"],
    stackPool := [
      "Grafana", "Prometheus", "VictoriaMetrics", "Jaeger",
      "ELK", "Datadog", "PagerDuty", "Chaos Engineering"] }),
  ("tinkerer", {
    title := "Chronic Tinkerer",
    titlePrefixes := [""],
    taglines := [
      "What if I just tried one more thing...",
      "My side projects have side projects.",
      "Focus score: 42."],
    icon := "🔧",
    accentColor := "#FFD54F",
    bgGradient := "linear-gradient(135deg, #1a1508 0%, #2e2510 100%)",
    statLabels := ["Curiosity", "Side Projects", "Focus", "Ambition"],
    stackPool := [] }),
  ("hacker", {
    title := "Old School Hacker",
    titlePrefixes := [""],
    taglines := [
      "The terminal is home.",
      "Learned by breaking things. Still does.",
      "Pre-cloud, pre-container, pre-everything."],
    icon := ">_",
    accentColor := "#00FF41",
    bgGradient := "linear-gradient(135deg, #000000 0%, #0a0a0a 100%)",
    statLabels := ["Grit", "Nostalgia", "Root Access", "Lore"],
    stackPool := [
      "Bare Metal", "The Terminal", "Shell", "Neovim",
      "vim", "Helix", "tmux", "Zellij", "Ghostty"] }),
  ("dad", {
    title := "Dad",
    titlePrefixes := [""],
    taglines := [
      "My greatest production deployment.",
      "Works on weekends, deploys on weeknights.",
      "sudo parent --patience=infinite"],
    icon := "👨‍👧",
    accentColor := "#F48FB1",
    bgGradient := "linear-gradient(135deg, #1a0f15 0%, #2e1a28 100%)",
    statLabels := ["Patience", "Dad Jokes", "Snack Logistics", "Bedtime Stories"],
    stackPool := [
      "Diaper Deployment", "Lullaby API", "Snack Queue",
      "Timeout Orchestrator", "Nap Scheduler"] })]

/-! ## Experience estimation (src/lib/engine/experience.ts) -/

/-- ExperienceLevel from experience.ts; the field prefixVal renders the
source field named prefix. -/
structure ExperienceLevel where
  prefixVal : String
  years : String
deriving DecidableEq

/-- JavaScript comparison accountAge > n where accountAge may be NaN
(modelled as none): every comparison with NaN is false. -/
def jsAgeGT (age : Option ℤ) (n : ℤ) : Bool :=
  match age with
  | none => false
  | some a => decide (n < a)

/-- estimateExperience from experience.ts.  The host clock and the parsed
creation year are explicit parameters; a malformed created_at gives
createdYear = none (NaN), so accountAge is NaN and every age guard is
false. -/
def estimateExperience (currentYear : ℤ) (createdYear : Option ℤ)
    (domainScore maxScore : ℚ) : ExperienceLevel :=
  let accountAge : Option ℤ := createdYear.map (fun y => currentYear - y)
  let ratio : ℚ := domainScore / maxScore
  if 0.85 < ratio ∧ jsAgeGT accountAge 8 = true then
    ⟨"Principal", jsIntToString accountAge ++ "+ years"⟩
  else if 0.7 < ratio ∧ jsAgeGT accountAge 5 = true then
    ⟨"Staff", jsIntToString accountAge ++ "+ years"⟩
  else if 0.5 < ratio ∧ jsAgeGT accountAge 3 = true then
    ⟨"Senior", jsIntToString accountAge ++ "+ years"⟩
  else if 0.3 < ratio then
    ⟨"", jsIntToString accountAge ++ "+ years"⟩
  else
    ⟨"", "Active"⟩

/-! ## Persona card helpers (src/lib/engine/personas.ts) -/

/-- Model of the idiom record[key] = (record[key] || 0) + 1 on a
string-keyed count object kept in insertion order. -/
def bumpCount (m : List (String × ℕ)) (k : String) : List (String × ℕ) :=
  if m.any (fun e => e.1 == k) then
    m.map (fun e => if e.1 == k then (e.1, e.2 + 1) else e)
  else m ++ [(k, 1)]

/-- One repo step of the counting loop of deriveStackFromRepos: the pair
carries (langCounts, topicCounts). -/
def deriveStep (signals : DomainSignal)
    (acc : List (String × ℕ) × List (String × ℕ)) (repo : RepoData) :
    List (String × ℕ) × List (String × ℕ) :=
  let lang := toLowerStr (jsOrStr repo.language "")
  let topics := repo.topics.map toLowerStr
  let lm := langMatches signals lang
  let lc1 := if lm && strTruthy repo.language then bumpCount acc.1 (jsOrStr repo.language "")
    else acc.1
  let matchingTopics := topics.filter (fun t => signals.topics.any (fun st => codeTopicMatch t st))
  let tc := matchingTopics.foldl bumpCount acc.2
  let matchesFlag := lm || !matchingTopics.isEmpty
  let lc2 := if matchesFlag && strTruthy repo.language then bumpCount lc1 (jsOrStr repo.language "")
    else lc1
  (lc2, tc)

/-- The dedup-and-cap loop at the end of deriveStackFromRepos: skip names
already seen (case-insensitively) and stop once 12 results are kept; the
length check runs after every iteration as in the source loop. -/
def dedupCapLoop : List (String × ℕ) → List String → List String → List String
  | [], _, result => result
  | item :: rest, seen, result =>
    let key := toLowerStr item.1
    let pair := if seen.contains key then (seen, result)
      else (key :: seen, result ++ [item.1])
    if 12 ≤ pair.2.length then pair.2 else dedupCapLoop rest pair.1 pair.2

/-- deriveStackFromRepos from personas.ts. -/
def deriveStackFromRepos (personaId : String) (stars ownedRepos : List RepoData) :
    List String :=
  let allRepos := ownedRepos ++ stars
  match DOMAIN_SIGNALS.find? (fun ds => ds.1 == personaId) with
  | none => []
  | some ds =>
    let counts := allRepos.foldl (deriveStep ds.2) ([], [])
    let combined : List (String × ℕ) :=
      counts.1 ++ counts.2.map (fun e => (capitalizeFirst e.1, e.2))
    dedupCapLoop (sortByDesc (fun e => e.2) combined) [] []

/-- findRelevantStars from personas.ts. -/
def findRelevantStars (personaId : String) (stars : List RepoData)
    (maxCount : ℕ := 8) : List String :=
  match DOMAIN_SIGNALS.find? (fun ds => ds.1 == personaId) with
  | none => []
  | some ds =>
    let scored := stars.filterMap (fun repo =>
      let score := repoScoreNoName ds.2 repo
      if 2 ≤ score then some (shortNameOrFull repo.full_name, score) else none)
    ((sortByDesc (fun e => e.2) scored).take maxCount).map Prod.fst

/-- generateDetails from personas.ts. -/
def generateDetails (personaId : String) (stars ownedRepos : List RepoData) :
    List String :=
  match DOMAIN_SIGNALS.find? (fun ds => ds.1 == personaId) with
  | none => []
  | some ds =>
    let signals := ds.2
    let ownedCount := (ownedRepos.filter (fun r => decide (2 ≤ repoScoreNoName signals r))).length
    let d1 : List String := if 0 < ownedCount then
        [toString ownedCount ++ " owned " ++ (if ownedCount = 1 then "repo" else "repos")
          ++ " in this domain"]
      else []
    let starCount := (stars.filter (fun r => decide (2 ≤ repoScoreNoName signals r))).length
    let d2 : List String := if 0 < starCount then
        [toString starCount ++ " starred " ++ (if starCount = 1 then "repo" else "repos")
          ++ " tracked in this area"]
      else []
    let domainLangs := (ownedRepos ++ stars).foldl (fun acc repo =>
        match repo.language with
        | none => acc
        | some l =>
          if l = "" then acc
          else if langMatches signals (toLowerStr l) then bumpCount acc l else acc) []
    let topLangs := ((sortByDesc (fun e => e.2) domainLangs).take 3).map Prod.fst
    let d3 : List String := if topLangs.isEmpty then []
      else ["Primary languages: " ++ joinSep ", " topLangs]
    d1 ++ d2 ++ d3

/-- The fixed deterministic stat offsets of generateStats. -/
def statOffsets : List ℤ := [-5, 3, -8, 5]

/-- generateStats from personas.ts. -/
def generateStats (statLabels : List String) (normalizedScore : ℚ) :
    List (String × ℚ) :=
  statLabels.enum.map (fun p =>
    let offset : ℤ := statOffsets.getD (p.1 % statOffsets.length) 0
    (p.2, max 30 (min 100 (jsRound (normalizedScore + (offset : ℚ))))))

/-- PersonaCard from personas.ts. -/
structure PersonaCard where
  persona_id : String
  title : String
  tagline : String
  icon : String
  accent_color : String
  bg_gradient : String
  experience_label : String
  years_active : String
  confidence : ℚ
  sort_order : ℕ
  stats : List (String × ℚ)
  stack : List String
  details : List String
  starred_repos : List String
deriving DecidableEq

/-- Model of normalizedScores[id] || 0: a missing key and a zero value both
give 0, any other stored value is returned unchanged. -/
def lookupScoreOr0 (scores : List (String × ℚ)) (d : String) : ℚ :=
  ((scores.find? (fun e => e.1 == d)).map Prod.snd).getD 0

/-- generatePersonaDetails from personas.ts; currentYear and parseYear
model the host Date API used by estimateExperience and years_active. -/
def generatePersonaDetails (activePersonas : List ActivePersona)
    (normalizedScores : List (String × ℚ)) (stars ownedRepos : List RepoData)
    (profile : GithubProfile) (maxScore : ℚ) (currentYear : ℤ)
    (parseYear : String → Option ℤ) : List PersonaCard :=
  activePersonas.map (fun ap =>
    match PERSONA_TEMPLATES.find? (fun t => t.1 == ap.persona_id) with
    | none =>
      { persona_id := ap.persona_id, title := ap.persona_id, tagline := "", icon := "?",
        accent_color := "#888888",
        bg_gradient := "linear-gradient(135deg, #111 0%, #222 100%)",
        experience_label := "", years_active := "", confidence := ap.confidence,
        sort_order := ap.sort_order, stats := [], stack := [], details := [],
        starred_repos := [] }
    | some tpl =>
      let template := tpl.2
      let score := lookupScoreOr0 normalizedScores ap.persona_id
      let experience := estimateExperience currentYear (parseYear profile.created_at)
        score maxScore
      let pfx := if experience.prefixVal ≠ "" then experience.prefixVal
        else (if template.titlePrefixes.getD 0 "" ≠ "" then template.titlePrefixes.getD 0 ""
          else "")
      let fullTitle := if pfx ≠ "" then pfx ++ " " ++ template.title else template.title
      let tagline :=
        let t0 := template.taglines.getD (ap.sort_order % template.taglines.length) ""
        if t0 ≠ "" then t0 else template.taglines.getD 0 ""
      let stats := generateStats template.statLabels score
      let stack := if 0 < template.stackPool.length then template.stackPool.take 10
        else deriveStackFromRepos ap.persona_id stars ownedRepos
      let details := generateDetails ap.persona_id stars ownedRepos
      let starredRepos := findRelevantStars ap.persona_id stars
      let yearsActive := jsIntToString (parseYear profile.created_at) ++ " - Present"
      { persona_id := ap.persona_id, title := fullTitle, tagline := tagline,
        icon := template.icon, accent_color := template.accentColor,
        bg_gradient := template.bgGradient, experience_label := experience.years,
        years_active := yearsActive, confidence := ap.confidence,
        sort_order := ap.sort_order, stats := stats, stack := stack,
        details := details, starred_repos := starredRepos })

/-! ## Interest clustering (src/lib/engine/interests.ts) -/

/-- StarInterestCluster from interests.ts. -/
structure StarInterestCluster where
  label : String
  count : String
  examples : String
  matchCount : ℕ
deriving DecidableEq

/-- ClusterDefinition from interests.ts; the field matchRepo renders the
source field named match. -/
structure ClusterDefinition where
  matchRepo : RepoData → Bool

/-- Matcher of the "Nushell Ecosystem" cluster. -/
def nushellCluster : ClusterDefinition :=
  ⟨fun repo =>
    let name := toLowerStr repo.full_name
    let topics := repo.topics.map toLowerStr
    let lang := toLowerStr (jsOrStr repo.language "")
    jsIncludes name "nushell" || jsIncludes name ".nu" ||
      topics.contains "nushell" || lang == "nushell"⟩

/-- Matcher of the "Neovim & Editor" cluster. -/
def neovimCluster : ClusterDefinition :=
  ⟨fun repo =>
    let n := toLowerStr repo.full_name
    let t := repo.topics.map toLowerStr
    t.any (fun x => ["neovim", "nvim", "vim", "helix", "editor", "kakoune"].contains x) ||
      jsIncludes n "nvim" || jsIncludes n "neovim" || jsIncludes n "helix"⟩

/-- Matcher of the "React / Frontend" cluster. -/
def reactCluster : ClusterDefinition :=
  ⟨fun repo =>
    (repo.topics.map toLowerStr).any (fun x =>
      ["react", "vue", "svelte", "solid", "frontend", "nextjs", "nuxt", "astro"].contains x)⟩

/-- Matcher of the "Rust Ecosystem" cluster. -/
def rustCluster : ClusterDefinition :=
  ⟨fun repo => toLowerStr (jsOrStr repo.language "") == "rust"⟩

/-- Matcher of the "Security & Hacking" cluster. -/
def securityCluster : ClusterDefinition :=
  ⟨fun repo =>
    let t := repo.topics.map toLowerStr
    let d := toLowerStr (jsOrStr repo.description "")
    t.any (fun x =>
        ["security", "cve", "vulnerability", "penetration-testing",
          "hacking", "exploit", "ctf", "cybersecurity"].contains x) ||
      jsIncludes d "security" || jsIncludes d "vulnerability" || jsIncludes d "exploit"⟩

/-- Matcher of the "AI & LLM" cluster. -/
def aiCluster : ClusterDefinition :=
  ⟨fun repo =>
    let t := repo.topics.map toLowerStr
    let d := toLowerStr (jsOrStr repo.description "")
    t.any (fun x =>
        ["ai", "llm", "machine-learning", "gpt", "embeddings",
          "ai-agent", "openai", "anthropic"].contains x) ||
      jsIncludes d "ai " || jsIncludes d "llm" || jsIncludes d "machine learning"⟩

/-- Matcher of the "DevOps & Infrastructure" cluster. -/
def devopsCluster : ClusterDefinition :=
  ⟨fun repo =>
    (repo.topics.map toLowerStr).any (fun x =>
      ["kubernetes", "docker", "terraform", "ansible", "devops",
        "ci-cd", "infrastructure", "helm", "gitops"].contains x)⟩

/-- Matcher of the "CLI Tools" cluster. -/
def cliCluster : ClusterDefinition :=
  ⟨fun repo =>
    let t := repo.topics.map toLowerStr
    let d := toLowerStr (jsOrStr repo.description "")
    t.any (fun x => ["cli", "command-line", "terminal", "tui"].contains x) ||
      jsIncludes d "cli" || jsIncludes d "command-line" || jsIncludes d "terminal tool"⟩

/-- Matcher of the "Desktop Apps" cluster. -/
def desktopCluster : ClusterDefinition :=
  ⟨fun repo =>
    (repo.topics.map toLowerStr).any (fun x =>
      ["tauri", "electron", "desktop", "gtk", "qt",
        "cross-platform", "native-app"].contains x)⟩

/-- Matcher of the "Cloud & Edge" cluster. -/
def cloudEdgeCluster : ClusterDefinition :=
  ⟨fun repo =>
    let t := repo.topics.map toLowerStr
    let d := toLowerStr (jsOrStr repo.description "")
    t.any (fun x =>
        ["cloudflare", "aws", "serverless", "edge", "workers",
          "lambda", "vercel", "cloud"].contains x) ||
      jsIncludes d "cloudflare" || jsIncludes d "serverless" || jsIncludes d "edge function"⟩

/-- Matcher of the "Linux / Desktop" cluster. -/
def linuxDesktopCluster : ClusterDefinition :=
  ⟨fun repo =>
    (repo.topics.map toLowerStr).any (fun x =>
      ["linux", "wayland", "hyprland", "sway", "i3",
        "window-manager", "desktop-environment", "systemd",
        "dotfiles", "rice"].contains x)⟩

/-- Matcher of the "Static Sites & Blogs" cluster. -/
def staticSitesCluster : ClusterDefinition :=
  ⟨fun repo =>
    let t := repo.topics.map toLowerStr
    let d := toLowerStr (jsOrStr repo.description "")
    t.any (fun x =>
        ["zola", "hugo", "jekyll", "static-site", "blog",
          "astro", "ssg", "11ty"].contains x) ||
      jsIncludes d "static site" || jsIncludes d "blog theme"⟩

/-- INTEREST_CLUSTERS from interests.ts, in source insertion order. -/
def INTEREST_CLUSTERS : List (String × ClusterDefinition) := [
  ("Nushell Ecosystem", nushellCluster),
  ("Neovim & Editor", neovimCluster),
  ("React / Frontend", reactCluster),
  ("Rust Ecosystem", rustCluster),
  ("Security & Hacking", securityCluster),
  ("AI & LLM", aiCluster),
  ("DevOps & Infrastructure", devopsCluster),
  ("CLI Tools", cliCluster),
  ("Desktop Apps", desktopCluster),
  ("Cloud & Edge", cloudEdgeCluster),
  ("Linux / Desktop", linuxDesktopCluster),
  ("Static Sites & Blogs", staticSitesCluster)]

/-- The nested-conditional display bucket of clusterStarInterests. -/
def bucketCount (n : ℕ) : String :=
  if 15 ≤ n then "15+ repos"
  else if 10 ≤ n then "10+ repos"
  else if 5 ≤ n then "5+ repos"
  else toString n ++ " repos"

/-- clusterStarInterests from interests.ts: one candidate entry per catalog
cluster with at least two matching stars (insertion order), then a stable
sort by match count descending and a cap of 12. -/
def clusterStarInterests (stars : List RepoData) : List StarInterestCluster :=
  let results := INTEREST_CLUSTERS.filterMap (fun c =>
    let matching := stars.filter c.2.matchRepo
    if 2 ≤ matching.length then
      some { label := c.1,
             count := bucketCount matching.length,
             examples := joinSep ", " ((matching.take 5).map (fun r =>
               shortNameOrEmpty r.full_name)),
             matchCount := matching.length }
    else none)
  (sortByDesc (fun e => e.matchCount) results).take 12

/-! ## Project cards (src/lib/engine/projects.ts) -/

/-- ProjectCard from projects.ts. -/
structure ProjectCard where
  name : String
  description : String
  url : String
  tech : List String
  persona_map : List String
  language : String
  stars : ℕ
  forks : ℕ
deriving DecidableEq

/-- mapRepoToPersonas from projects.ts: score the repo against every
domain (language, topics, description only), keep domains with score at
least 2, sort by score descending. -/
def mapRepoToPersonas (repo : RepoData) : List String :=
  let mapped := DOMAIN_SIGNALS.filterMap (fun ds =>
    let score := repoScoreNoName ds.2 repo
    if 2 ≤ score then some (ds.1, score) else none)
  (sortByDesc (fun e => e.2) mapped).map Prod.fst

/-- Model of topic.split("-"). -/
def jsSplitDash (s : String) : List String := (splitOnChar '-' s.data).map (fun l => ⟨l⟩)

/-- The tech-tag loop of generateProjectCards: capitalize each dash-separated
topic word, skip duplicates and tags equal to the language, and stop as soon
as 8 tags are collected (the length check runs after every iteration). -/
def techLoop (lang : String) : List String → List String → List String
  | [], tech => tech
  | t :: rest, tech =>
    let display := joinSep " " ((jsSplitDash t).map capitalizeFirst)
    let tech' := if !(tech.contains display) && !(toLowerStr display == toLowerStr lang)
      then tech ++ [display] else tech
    if 8 ≤ tech'.length then tech' else techLoop lang rest tech'

/-- generateProjectCards from projects.ts. -/
def generateProjectCards (ownedRepos : List RepoData) : List ProjectCard :=
  let cards := ownedRepos.filterMap (fun repo =>
    let personaMap := mapRepoToPersonas repo
    if personaMap.isEmpty then none
    else
      let tech := techLoop (jsOrStr repo.language "") repo.topics
        (if strTruthy repo.language then [jsOrStr repo.language ""] else [])
      some { name := shortNameOrFull repo.full_name,
             description := jsOrStr repo.description "",
             url := jsOrStr repo.html_url ("https://github.com/" ++ repo.full_name),
             tech := tech,
             persona_map := personaMap,
             language := jsOrStr repo.language "",
             stars := repo.stargazers_count.getD 0,
             forks := repo.forks_count.getD 0 })
  sortByDesc (fun c => c.stars) cards

/-! ## Orchestrator (src/lib/engine/index.ts) -/

/-- RadarAxis from index.ts. -/
structure RadarAxis where
  label : String
  value : ℚ
  color : String
  domain : String
  sort_order : ℕ
deriving DecidableEq

/-- RADAR_AXIS_META from index.ts, as (domain, (label, color)). -/
def RADAR_AXIS_META : List (String × String × String) := [
  ("systems", "Rust/Systems", "#4A90D9"),
  ("platform", "Platform/IaC", "#7C4DFF"),
  ("software", "TypeScript/JS", "#00E676"),
  ("cloud", "Cloud/Infra", "#40C4FF"),
  ("linux", "Linux/Desktop", "#FFEB3B"),
  ("solutions", "Solutions", "#FF9800"),
  ("sre", "Security", "#FF5252"),
  ("tinkerer", "AI/LLM", "#FFD54F"),
  ("hacker", "Neovim/Editor", "#00FF41")]

/-- Lookup of RADAR_AXIS_META[domain]. -/
def lookupMeta (d : String) : Option (String × String) :=
  (RADAR_AXIS_META.find? (fun e => e.1 == d)).map Prod.snd

/-- Step 7 of computeFullProfile: filter the normalized entries to those
with radar metadata and index the filtered list. -/
def buildRadarAxes (normalizedScores : List (String × ℚ)) : List RadarAxis :=
  ((normalizedScores.filter (fun e => (lookupMeta e.1).isSome)).enum).map (fun p =>
    let meta := (lookupMeta p.2.1).getD ("", "")
    { label := meta.1, value := p.2.2, color := meta.2, domain := p.2.1,
      sort_order := p.1 })

/-- The profile echo block of the FullProfile result. -/
structure ProfileEcho where
  username : String
  display_name : String
  bio : String
  location : String
  email : String
  blog : String
  company : String
  avatar_url : String
  followers : ℕ
  following : ℕ
  public_repos : ℕ
  created_at : String
deriving DecidableEq

/-- FullProfile from index.ts. -/
structure FullProfile where
  profile : ProfileEcho
  personas : List PersonaCard
  projects : List ProjectCard
  radar_axes : List RadarAxis
  star_interests : List StarInterestCluster
deriving DecidableEq

/-- computeFullProfile from index.ts; currentYear and parseYear model the
host Date API threaded to generatePersonaDetails. -/
def computeFullProfile (currentYear : ℤ) (parseYear : String → Option ℤ)
    (githubProfile : GithubProfile) (ownedRepos stars : List RepoData) : FullProfile :=
  let rawScores := computeDomainScores stars ownedRepos
  let normalizedScores := normalizeToRadar rawScores
  let activePersonas := determinePersonas normalizedScores
  let starInterests := clusterStarInterests stars
  let maxScore := max ((jsMaxList (normalizedScores.map Prod.snd)).getD 1) 1
  let personas := generatePersonaDetails activePersonas normalizedScores stars ownedRepos
    githubProfile maxScore currentYear parseYear
  let projects := generateProjectCards ownedRepos
  let radarAxes := buildRadarAxes normalizedScores
  { profile := {
      username := githubProfile.login,
      display_name := jsOrStr githubProfile.name githubProfile.login,
      bio := jsOrStr githubProfile.bio "",
      location := jsOrStr githubProfile.location "",
      email := jsOrStr githubProfile.email "",
      blog := jsOrStr githubProfile.blog "",
      company := jsOrStr githubProfile.company "",
      avatar_url := githubProfile.avatar_url,
      followers := githubProfile.followers,
      following := githubProfile.following,
      public_repos := githubProfile.public_repos,
      created_at := githubProfile.created_at },
    personas := personas,
    projects := projects,
    radar_axes := radarAxes,
    star_interests := starInterests }

/-! ## Spec-side comparison definitions

The next definitions transcribe rules as the specification words them, to
be compared with the definitions extracted from the source above. -/

/-- Transcribes the specification rule for one aggregation pass
(aggregate(repos, categories, weightMultiplier)): per category, the sum of
per-repo scores times the weight multiplier. -/
def aggregateScores (repos : List RepoData) (mult : ℚ) : List (String × ℚ) :=
  DOMAIN_SIGNALS.map (fun ds => (ds.1, mult * (repos.map (repoScoreFor ds.2)).sum))

/-- Pointwise sum of two score vectors over the same key list. -/
def vecAdd (v w : List (String × ℚ)) : List (String × ℚ) :=
  List.zipWith (fun a b => (a.1, a.2 + b.2)) v w

/-- Transcribes the specification topic-match rule: bidirectional substring
containment, except that tokens shorter than 3 characters require an exact
match. -/
def specGatedTopicMatch (t st : String) : Bool :=
  if t.length < 3 || st.length < 3 then t == st
  else jsIncludes t st || jsIncludes st t

/-- Transcribes the specification keyword-match rule: the keyword must be
at least 4 characters long. -/
def specKeywordMatch (text kw : String) : Bool :=
  decide (4 ≤ kw.length) && jsIncludes text kw

/-! ## General lemmas about the stable sorting model -/

theorem sortByDesc_perm {α β : Type} [LinearOrder β] (key : α → β) (l : List α) :
    (sortByDesc key l).Perm l :=
  List.perm_insertionSort _ l

theorem mem_sortByDesc {α β : Type} [LinearOrder β] {key : α → β} {l : List α} {a : α} :
    a ∈ sortByDesc key l ↔ a ∈ l :=
  List.mem_insertionSort _

theorem length_sortByDesc {α β : Type} [LinearOrder β] (key : α → β) (l : List α) :
    (sortByDesc key l).length = l.length :=
  List.length_insertionSort _ l

theorem sortByDesc_sorted {α β : Type} [LinearOrder β] (key : α → β) (l : List α) :
    List.Sorted (fun a b => key b ≤ key a) (sortByDesc key l) := by
  haveI : IsTotal α (fun a b => key b ≤ key a) := ⟨fun a b => le_total (key b) (key a)⟩
  haveI : IsTrans α (fun a b => key b ≤ key a) := ⟨fun _ _ _ h1 h2 => le_trans h2 h1⟩
  exact List.sorted_insertionSort _ l

/-- Stability of the sorting model, phrased per key class: the subsequence
of elements with any one key value is unchanged by the sort. -/
theorem sortByDesc_filter_key {α β : Type} [LinearOrder β] (key : α → β) (v : β)
    (l : List α) :
    (sortByDesc key l).filter (fun a => decide (key a = v)) =
      l.filter (fun a => decide (key a = v)) := by
  induction l with
  | nil => rfl
  | cons x l ih =>
    have hstep : sortByDesc key (x :: l) =
        List.orderedInsert (fun a b => key b ≤ key a) x (sortByDesc key l) := rfl
    rw [hstep, List.orderedInsert_eq_take_drop, List.filter_append]
    set p : α → Bool := fun a => decide (key a = v) with hp
    have hsplit : List.filter p (List.takeWhile (fun b => decide ¬(key b ≤ key x))
          (sortByDesc key l))
        ++ List.filter p (List.dropWhile (fun b => decide ¬(key b ≤ key x))
          (sortByDesc key l))
        = List.filter p (sortByDesc key l) := by
      rw [← List.filter_append, List.takeWhile_append_dropWhile]
    by_cases hx : key x = v
    · have htake : List.filter p (List.takeWhile (fun b => decide ¬(key b ≤ key x))
          (sortByDesc key l)) = [] := by
        rw [List.filter_eq_nil_iff]
        intro a ha
        have h1 := List.mem_takeWhile_imp ha
        simp only [decide_eq_true_eq] at h1
        simp only [hp, decide_eq_true_eq]
        intro hav
        exact h1 (le_of_eq (hav.trans hx.symm))
      have hxp : p x = true := by simp [hp, hx]
      rw [htake, List.nil_append, List.filter_cons_of_pos hxp]
      have : List.filter p (List.dropWhile (fun b => decide ¬(key b ≤ key x))
          (sortByDesc key l)) = List.filter p (sortByDesc key l) := by
        rw [← hsplit, htake, List.nil_append]
      rw [this, ih, List.filter_cons_of_pos hxp]
    · have hxp : p x = false := by simp [hp, hx]
      rw [List.filter_cons_of_neg (by simp [hxp]), hsplit, ih,
        List.filter_cons_of_neg (by simp [hxp])]

/-! ## Lemmas about the score model -/

theorem repoScoreFor_nonneg (sig : DomainSignal) (repo : RepoData) :
    0 ≤ repoScoreFor sig repo := by
  unfold repoScoreFor
  have h1 : (0:ℚ) ≤ if langMatches sig (toLowerStr (jsOrStr repo.language "")) then 2 else 0 := by
    split <;> norm_num
  have h2 : (0:ℚ) ≤ (topicMatchCount sig (repo.topics.map toLowerStr) : ℚ) * 3 := by positivity
  have h3 : (0:ℚ) ≤ (descMatchCount sig (toLowerStr (jsOrStr repo.description "")) : ℚ) * 1.5 := by
    positivity
  have h4 : (0:ℚ) ≤ (descMatchCount sig (toLowerStr repo.full_name) : ℚ) * 1 := by positivity
  linarith

theorem computeDomainScores_nonneg (stars owned : List RepoData) :
    ∀ e ∈ computeDomainScores stars owned, 0 ≤ e.2 := by
  intro e he
  unfold computeDomainScores at he
  obtain ⟨ds, _, rfl⟩ := List.mem_map.mp he
  dsimp only
  apply add_nonneg
  · apply List.sum_nonneg
    intro x hx
    obtain ⟨r, _, rfl⟩ := List.mem_map.mp hx
    exact repoScoreFor_nonneg _ _
  · apply List.sum_nonneg
    intro x hx
    obtain ⟨r, _, rfl⟩ := List.mem_map.mp hx
    exact mul_nonneg (repoScoreFor_nonneg _ _) (by norm_num)

theorem computeDomainScores_fst (stars owned : List RepoData) :
    (computeDomainScores stars owned).map Prod.fst = DOMAIN_SIGNALS.map Prod.fst := by
  unfold computeDomainScores
  rw [List.map_map]
  rfl

/-! ## Lemmas about the maximum model -/

theorem foldl_max_le_init (l : List ℚ) (a : ℚ) : a ≤ l.foldl max a := by
  induction l generalizing a with
  | nil => exact le_refl a
  | cons h t ih => exact le_trans (le_max_left a h) (ih (max a h))

theorem foldl_max_mem_le (l : List ℚ) (a x : ℚ) (hx : x ∈ l) : x ≤ l.foldl max a := by
  induction l generalizing a with
  | nil => cases hx
  | cons h t ih =>
    rcases List.mem_cons.mp hx with rfl | hmem
    · exact le_trans (le_max_right a x) (foldl_max_le_init t (max a x))
    · exact ih (max a h) hmem

theorem foldl_max_cases (l : List ℚ) (a : ℚ) : l.foldl max a = a ∨ l.foldl max a ∈ l := by
  induction l generalizing a with
  | nil => exact Or.inl rfl
  | cons h t ih =>
    rcases ih (max a h) with heq | hmem
    · rcases max_choice a h with hc | hc
      · exact Or.inl (by rw [List.foldl_cons, heq, hc])
      · exact Or.inr (by rw [List.foldl_cons, heq, hc]; exact List.mem_cons_self _ _)
    · exact Or.inr (List.mem_cons_of_mem _ hmem)

theorem jsMaxList_le {xs : List ℚ} {m : ℚ} (h : jsMaxList xs = some m) :
    ∀ x ∈ xs, x ≤ m := by
  cases xs with
  | nil => cases h
  | cons y t =>
    intro x hx
    have hm : t.foldl max y = m := by simpa [jsMaxList] using h
    rcases List.mem_cons.mp hx with rfl | hmem
    · exact hm ▸ foldl_max_le_init t x
    · exact hm ▸ foldl_max_mem_le t y x hmem

theorem jsMaxList_mem {xs : List ℚ} {m : ℚ} (h : jsMaxList xs = some m) : m ∈ xs := by
  cases xs with
  | nil => cases h
  | cons y t =>
    have hm : t.foldl max y = m := by simpa [jsMaxList] using h
    rcases foldl_max_cases t y with heq | hmem
    · rw [← hm, heq]; exact List.mem_cons_self _ _
    · exact List.mem_cons_of_mem _ (hm ▸ hmem)

/-! ## Lemmas about the rounding model -/

theorem jsRound_bounds {x : ℚ} (h1 : 40 < x) (h2 : x ≤ 100) :
    40 ≤ jsRound x ∧ jsRound x ≤ 100 := by
  unfold jsRound
  constructor
  · have h : (40:ℤ) ≤ ⌊x + 1/2⌋ := Int.le_floor.mpr (by push_cast; linarith)
    exact_mod_cast h
  · have h : ⌊x + 1/2⌋ < 101 := Int.floor_lt.mpr (by push_cast; linarith)
    have h' : ⌊x + 1/2⌋ ≤ 100 := by omega
    exact_mod_cast h'

theorem jsRound_100 : jsRound 100 = 100 := by
  unfold jsRound
  norm_num

/-! ## Lemmas about the normalizer -/

theorem normalizeToRadar_fst (v : List (String × ℚ)) :
    (normalizeToRadar v).map Prod.fst = v.map Prod.fst := by
  unfold normalizeToRadar
  cases jsMaxList (v.map Prod.snd) with
  | none => rfl
  | some m =>
    dsimp only
    split
    · rfl
    · rw [List.map_map]; rfl

theorem normalizeToRadar_length (v : List (String × ℚ)) :
    (normalizeToRadar v).length = v.length := by
  have := congrArg List.length (normalizeToRadar_fst v)
  simpa using this

theorem normalizeToRadar_pos_of_ne (v : List (String × ℚ)) {m : ℚ}
    (hnn : ∀ e ∈ v, 0 ≤ e.2) (hm : jsMaxList (v.map Prod.snd) = some m) (hm0 : m ≠ 0) :
    0 < m := by
  obtain ⟨e, he, heq⟩ := List.mem_map.mp (jsMaxList_mem hm)
  exact lt_of_le_of_ne (heq ▸ hnn e he) (Ne.symm hm0)

theorem normalizeToRadar_getElem (v : List (String × ℚ)) {m : ℚ}
    (hm : jsMaxList (v.map Prod.snd) = some m) (hm0 : m ≠ 0)
    (i : ℕ) (hi : i < v.length) (hi' : i < (normalizeToRadar v).length) :
    (normalizeToRadar v)[i] =
      ((v[i]).1, if 0 < (v[i]).2 then jsRound (40 + (v[i]).2 / m * 60) else 0) := by
  unfold normalizeToRadar
  simp only [hm, if_neg hm0, List.getElem_map]

theorem normalizeToRadar_bounds (v : List (String × ℚ)) (hnn : ∀ e ∈ v, 0 ≤ e.2) :
    ∀ e ∈ normalizeToRadar v, 0 ≤ e.2 ∧ e.2 ≤ 100 := by
  intro e he
  unfold normalizeToRadar at he
  cases hm : jsMaxList (v.map Prod.snd) with
  | none =>
    rw [hm] at he
    cases v with
    | nil => cases he
    | cons x t => cases hm
  | some m =>
    rw [hm] at he
    dsimp only at he
    by_cases hm0 : m = 0
    · rw [if_pos hm0] at he
      have h1 := hnn e he
      have h2 := jsMaxList_le hm _ (List.mem_map_of_mem Prod.snd he)
      constructor
      · exact h1
      · rw [hm0] at h2; linarith
    · rw [if_neg hm0] at he
      obtain ⟨e0, he0, rfl⟩ := List.mem_map.mp he
      dsimp only
      have hpos : 0 < m := normalizeToRadar_pos_of_ne v hnn hm hm0
      split
      · rename_i hx
        have hle : e0.2 ≤ m := jsMaxList_le hm _ (List.mem_map_of_mem Prod.snd he0)
        have hdiv1 : e0.2 / m ≤ 1 := (div_le_one hpos).mpr hle
        have hdiv0 : 0 < e0.2 / m := div_pos hx hpos
        have hb := jsRound_bounds (x := 40 + e0.2 / m * 60) (by linarith) (by linarith)
        exact ⟨by linarith [hb.1], hb.2⟩
      · norm_num

/-! ## Lemmas about persona activation -/

theorem determinePersonas_map_id (scores : List (String × ℚ)) :
    (determinePersonas scores).map (fun p => p.persona_id) =
      (sortByDesc (fun e => e.2)
        (scores.filter (fun e => decide (PERSONA_THRESHOLD ≤ e.2)))).map Prod.fst := by
  unfold determinePersonas
  rw [List.map_map]
  have h : ((fun p : ActivePersona => p.persona_id) ∘
      (fun p : ℕ × (String × ℚ) => (⟨p.2.1, p.2.2 / 100, p.1⟩ : ActivePersona)))
      = (Prod.fst ∘ Prod.snd) := rfl
  rw [h, ← List.map_map, List.enum_map_snd]

theorem determinePersonas_length (scores : List (String × ℚ)) :
    (determinePersonas scores).length =
      (scores.filter (fun e => decide (PERSONA_THRESHOLD ≤ e.2))).length := by
  unfold determinePersonas
  rw [List.length_map, List.enum_length, length_sortByDesc]

theorem determinePersonas_getElem (scores : List (String × ℚ)) (i : ℕ)
    (hi : i < (determinePersonas scores).length)
    (hi' : i < (sortByDesc (fun e : String × ℚ => e.2)
      (scores.filter (fun e => decide (PERSONA_THRESHOLD ≤ e.2)))).length) :
    (determinePersonas scores)[i] =
      ⟨((sortByDesc (fun e : String × ℚ => e.2)
          (scores.filter (fun e => decide (PERSONA_THRESHOLD ≤ e.2))))[i]).1,
        ((sortByDesc (fun e : String × ℚ => e.2)
          (scores.filter (fun e => decide (PERSONA_THRESHOLD ≤ e.2))))[i]).2 / 100, i⟩ := by
  unfold determinePersonas
  rw [List.getElem_map, List.getElem_enum]

theorem determinePersonas_sorted (scores : List (String × ℚ)) :
    List.Pairwise (fun p q : ActivePersona => q.confidence ≤ p.confidence)
      (determinePersonas scores) := by
  unfold determinePersonas
  rw [List.pairwise_map]
  have h := sortByDesc_sorted (fun e : String × ℚ => e.2)
    (scores.filter (fun e => decide (PERSONA_THRESHOLD ≤ e.2)))
  unfold List.Sorted at h
  rw [← List.enum_map_snd (sortByDesc (fun e : String × ℚ => e.2)
    (scores.filter (fun e => decide (PERSONA_THRESHOLD ≤ e.2)))), List.pairwise_map] at h
  refine h.imp ?_
  intro a b hab
  dsimp only
  exact div_le_div_of_nonneg_right hab (by norm_num)

theorem mem_determinePersonas (scores : List (String × ℚ)) (p : ActivePersona) :
    p ∈ determinePersonas scores →
      ∃ s : ℚ, (p.persona_id, s) ∈ scores ∧ PERSONA_THRESHOLD ≤ s ∧ p.confidence = s / 100 := by
  intro hp
  unfold determinePersonas at hp
  obtain ⟨q, hq, rfl⟩ := List.mem_map.mp hp
  have hq2 : q.2 ∈ sortByDesc (fun e : String × ℚ => e.2)
      (scores.filter (fun e => decide (PERSONA_THRESHOLD ≤ e.2))) := by
    have := List.mem_map_of_mem Prod.snd hq
    rwa [List.enum_map_snd] at this
  have hq3 := mem_sortByDesc.mp hq2
  have hq4 := List.mem_filter.mp hq3
  refine ⟨q.2.2, ?_, ?_, rfl⟩
  · exact hq4.1
  · simpa using hq4.2

theorem generatePersonaDetails_map_id (aps : List ActivePersona)
    (ns : List (String × ℚ)) (stars owned : List RepoData) (profile : GithubProfile)
    (ms : ℚ) (cy : ℤ) (py : String → Option ℤ) :
    (generatePersonaDetails aps ns stars owned profile ms cy py).map
        (fun c => c.persona_id) = aps.map (fun p => p.persona_id) := by
  unfold generatePersonaDetails
  rw [List.map_map]
  apply List.map_congr_left
  intro ap _
  dsimp only [Function.comp]
  split <;> rfl

/-! ## Lemmas about interest clustering -/

theorem interestClusters_labels_nodup : (INTEREST_CLUSTERS.map Prod.fst).Nodup := by
  decide

theorem interestClusters_length : INTEREST_CLUSTERS.length = 12 := by decide

/-! ## Claim theorems -/

/-- Claim C3: for every raw score vector (nonnegative, as produced by the
aggregator), if the maximum entry is 0 the normalizer returns the vector
unchanged and all entries are zero; otherwise each zero entry stays 0, each
positive entry equals round(40 + (score/max)*60) and lies in [40, 100], an
entry equal to the maximum normalizes to exactly 100, and an entry is
positive after normalization exactly when it was positive before. -/
theorem claim_c3 (scores : List (String × ℚ)) (hnn : ∀ e ∈ scores, 0 ≤ e.2) :
    (jsMaxList (scores.map Prod.snd) = some 0 →
      normalizeToRadar scores = scores ∧ ∀ e ∈ scores, e.2 = 0) ∧
    (∀ m : ℚ, jsMaxList (scores.map Prod.snd) = some m → m ≠ 0 →
      (normalizeToRadar scores).length = scores.length ∧
      ∀ i (hi : i < scores.length) (hi' : i < (normalizeToRadar scores).length),
        ((normalizeToRadar scores)[i]).1 = (scores[i]).1 ∧
        ((scores[i]).2 = 0 → ((normalizeToRadar scores)[i]).2 = 0) ∧
        (0 < (scores[i]).2 →
          ((normalizeToRadar scores)[i]).2 = jsRound (40 + (scores[i]).2 / m * 60) ∧
          40 ≤ ((normalizeToRadar scores)[i]).2 ∧ ((normalizeToRadar scores)[i]).2 ≤ 100) ∧
        ((scores[i]).2 = m → ((normalizeToRadar scores)[i]).2 = 100) ∧
        (0 < ((normalizeToRadar scores)[i]).2 ↔ 0 < (scores[i]).2)) := by
  constructor
  · intro h0
    have hz : ∀ e ∈ scores, e.2 = 0 := by
      intro e he
      have h1 := jsMaxList_le h0 _ (List.mem_map_of_mem Prod.snd he)
      exact le_antisymm h1 (hnn e he)
    refine ⟨?_, hz⟩
    unfold normalizeToRadar
    simp only [h0, if_pos]
  · intro m hm hm0
    refine ⟨normalizeToRadar_length scores, ?_⟩
    intro i hi hi'
    have hget := normalizeToRadar_getElem scores hm hm0 i hi hi'
    have hmem : (scores[i]).2 ∈ scores.map Prod.snd :=
      List.mem_map_of_mem Prod.snd (List.getElem_mem hi)
    have hle : (scores[i]).2 ≤ m := jsMaxList_le hm _ hmem
    have hpos : 0 < m := normalizeToRadar_pos_of_ne scores hnn hm hm0
    refine ⟨?_, ?_, ?_, ?_, ?_⟩
    · rw [hget]
    · intro hz
      rw [hget]
      simp [hz]
    · intro hp
      rw [hget]
      simp only [if_pos hp]
      have hdiv1 : (scores[i]).2 / m ≤ 1 := (div_le_one hpos).mpr hle
      have hdiv0 : 0 < (scores[i]).2 / m := div_pos hp hpos
      have hb := jsRound_bounds (x := 40 + (scores[i]).2 / m * 60)
        (by linarith) (by linarith)
      exact ⟨by trivial, hb.1, hb.2⟩
    · intro hmax
      rw [hget]
      rw [if_pos (hmax ▸ hpos)]
      rw [hmax, div_self hm0]
      norm_num
      exact jsRound_100
    · constructor
      · intro hout
        by_contra hns
        have hz : (scores[i]).2 = 0 :=
          le_antisymm (not_lt.mp hns) (hnn _ (List.getElem_mem hi))
        rw [hget] at hout
        simp [hz] at hout
      · intro hp
        rw [hget]
        simp only [if_pos hp]
        have hdiv1 : (scores[i]).2 / m ≤ 1 := (div_le_one hpos).mpr hle
        have hdiv0 : 0 < (scores[i]).2 / m := div_pos hp hpos
        have hb := jsRound_bounds (x := 40 + (scores[i]).2 / m * 60)
          (by linarith) (by linarith)
        linarith [hb.1]

/-- The normalization scenario used by the specification. -/
def demoScores : List (String × ℚ) := [("systems", 80), ("platform", 40), ("cloud", 0)]

/-- Claim C3 witness: claim_c3 applied at the concrete scenario vector. -/
theorem claim_c3_witness : (normalizeToRadar demoScores).length = demoScores.length :=
  ((claim_c3 demoScores (by with_unfolding_all decide)).2 80
    (by with_unfolding_all decide) (by norm_num)).1

/-- Claim C8: determinePersonas returns exactly the categories at or above
threshold 45, sorted descending by score with ties preserving input order
(stability phrased per score class), with rank equal to sorted position and
confidence score/100; and the concrete activation scenario. -/
theorem claim_c8 :
    (∀ scores : List (String × ℚ),
      (∀ d : String,
        (∃ p ∈ determinePersonas scores, p.persona_id = d) ↔
          ∃ s : ℚ, (d, s) ∈ scores ∧ 45 ≤ s) ∧
      List.Pairwise (fun p q : ActivePersona => q.confidence ≤ p.confidence)
        (determinePersonas scores) ∧
      (∀ i (hi : i < (determinePersonas scores).length),
        ((determinePersonas scores)[i]).sort_order = i) ∧
      (∀ p ∈ determinePersonas scores,
        ∃ s : ℚ, (p.persona_id, s) ∈ scores ∧ 45 ≤ s ∧ p.confidence = s / 100) ∧
      (∀ v : ℚ,
        ((determinePersonas scores).filter (fun p => decide (p.confidence = v))).map
            (fun p => p.persona_id) =
          ((scores.filter (fun e => decide ((45:ℚ) ≤ e.2))).filter
            (fun e => decide (e.2 = 100 * v))).map Prod.fst)) ∧
    determinePersonas [("systems", 100), ("platform", 70), ("cloud", 0), ("linux", 44)] =
      [⟨"systems", 1, 0⟩, ⟨"platform", 7/10, 1⟩] := by
  have hthr : PERSONA_THRESHOLD = (45:ℚ) := rfl
  constructor
  · intro scores
    refine ⟨?_, determinePersonas_sorted scores, ?_, ?_, ?_⟩
    · intro d
      constructor
      · rintro ⟨p, hp, rfl⟩
        obtain ⟨s, hs, h45, _⟩ := mem_determinePersonas scores p hp
        exact ⟨s, hs, hthr ▸ h45⟩
      · rintro ⟨s, hs, h45⟩
        have hf : (d, s) ∈ scores.filter (fun e => decide (PERSONA_THRESHOLD ≤ e.2)) :=
          List.mem_filter.mpr ⟨hs, by simp [hthr]; exact h45⟩
        have hsorted : (d, s) ∈ sortByDesc (fun e : String × ℚ => e.2)
            (scores.filter (fun e => decide (PERSONA_THRESHOLD ≤ e.2))) :=
          mem_sortByDesc.mpr hf
        have hd : d ∈ (sortByDesc (fun e : String × ℚ => e.2)
            (scores.filter (fun e => decide (PERSONA_THRESHOLD ≤ e.2)))).map Prod.fst :=
          List.mem_map_of_mem Prod.fst hsorted
        rw [← determinePersonas_map_id] at hd
        obtain ⟨p, hp, hpd⟩ := List.mem_map.mp hd
        exact ⟨p, hp, hpd⟩
    · intro i hi
      have hi' : i < (sortByDesc (fun e : String × ℚ => e.2)
          (scores.filter (fun e => decide (PERSONA_THRESHOLD ≤ e.2)))).length := by
        rw [length_sortByDesc]
        rw [determinePersonas_length] at hi
        exact hi
      rw [determinePersonas_getElem scores i hi hi']
    · intro p hp
      obtain ⟨s, hs, h45, hc⟩ := mem_determinePersonas scores p hp
      exact ⟨s, hs, hthr ▸ h45, hc⟩
    · intro v
      unfold determinePersonas
      rw [List.filter_map, List.map_map]
      have h1 : ((fun p : ActivePersona => p.persona_id) ∘
          (fun p : ℕ × (String × ℚ) => (⟨p.2.1, p.2.2 / 100, p.1⟩ : ActivePersona)))
          = (Prod.fst ∘ Prod.snd) := rfl
      have h2 : ((fun p : ActivePersona => decide (p.confidence = v)) ∘
          (fun p : ℕ × (String × ℚ) => (⟨p.2.1, p.2.2 / 100, p.1⟩ : ActivePersona)))
          = ((fun e : String × ℚ => decide (e.2 / 100 = v)) ∘ Prod.snd) := rfl
      rw [h1, h2, ← List.map_map]
      rw [show (List.map Prod.snd (List.filter
            ((fun e : String × ℚ => decide (e.2 / 100 = v)) ∘ Prod.snd)
            (sortByDesc (fun e : String × ℚ => e.2)
              (scores.filter (fun e => decide (PERSONA_THRESHOLD ≤ e.2)))).enum))
          = List.filter (fun e : String × ℚ => decide (e.2 / 100 = v))
            (List.map Prod.snd (sortByDesc (fun e : String × ℚ => e.2)
              (scores.filter (fun e => decide (PERSONA_THRESHOLD ≤ e.2)))).enum)
        from (List.filter_map Prod.snd _).symm]
      rw [List.enum_map_snd]
      have h3 : List.filter (fun e : String × ℚ => decide (e.2 / 100 = v))
          (sortByDesc (fun e : String × ℚ => e.2)
            (scores.filter (fun e => decide (PERSONA_THRESHOLD ≤ e.2))))
          = List.filter (fun e : String × ℚ => decide (e.2 = 100 * v))
            (sortByDesc (fun e : String × ℚ => e.2)
              (scores.filter (fun e => decide (PERSONA_THRESHOLD ≤ e.2)))) := by
        apply List.filter_congr
        intro e _
        simp only [decide_eq_decide]
        rw [div_eq_iff (by norm_num : (100:ℚ) ≠ 0)]
        constructor
        · intro h; rw [h]; ring
        · intro h; rw [h]; ring
      rw [h3]
      have h4 := sortByDesc_filter_key (fun e : String × ℚ => e.2) (100 * v)
        (scores.filter (fun e => decide (PERSONA_THRESHOLD ≤ e.2)))
      rw [h4, hthr]
  · with_unfolding_all decide

/-- Claim C8 witness: claim_c8 applied at a one-entry score vector. -/
theorem claim_c8_witness :
    ∃ p ∈ determinePersonas [("systems", (100:ℚ))], p.persona_id = "systems" :=
  ((claim_c8.1 [("systems", 100)]).1 "systems").mpr
    ⟨100, by with_unfolding_all decide, by norm_num⟩

/-- Claim C9: a cluster appears in clusterStarInterests output exactly when
its matcher selects at least 2 starred repos; the displayed count is the
15+/10+/5+/exact bucket of the match count, the examples are the first 5
matching short names in input order, the list is sorted by match count
descending and has at most 12 entries. -/
theorem claim_c9 (stars : List RepoData) :
    (clusterStarInterests stars).length ≤ 12 ∧
    List.Pairwise (fun a b : StarInterestCluster => b.matchCount ≤ a.matchCount)
      (clusterStarInterests stars) ∧
    (∀ lb : String, ∀ cfg : ClusterDefinition, (lb, cfg) ∈ INTEREST_CLUSTERS →
      (2 ≤ (stars.filter cfg.matchRepo).length ↔
        ∃ e ∈ clusterStarInterests stars, e.label = lb)) ∧
    (∀ e ∈ clusterStarInterests stars, ∃ cfg : ClusterDefinition,
      (e.label, cfg) ∈ INTEREST_CLUSTERS ∧
      e.matchCount = (stars.filter cfg.matchRepo).length ∧ 2 ≤ e.matchCount ∧
      e.count = bucketCount e.matchCount ∧
      e.examples = joinSep ", " (((stars.filter cfg.matchRepo).take 5).map
        (fun r => shortNameOrEmpty r.full_name))) := by
  classical
  set f : String × ClusterDefinition → Option StarInterestCluster := fun c =>
    let matching := stars.filter c.2.matchRepo
    if 2 ≤ matching.length then
      some { label := c.1,
             count := bucketCount matching.length,
             examples := joinSep ", " ((matching.take 5).map (fun r =>
               shortNameOrEmpty r.full_name)),
             matchCount := matching.length }
    else none
    with hf
  have hres : clusterStarInterests stars =
      sortByDesc (fun e : StarInterestCluster => e.matchCount)
        (INTEREST_CLUSTERS.filterMap f) := by
    unfold clusterStarInterests
    rw [List.take_of_length_le]
    rw [length_sortByDesc]
    calc (INTEREST_CLUSTERS.filterMap f).length
        ≤ INTEREST_CLUSTERS.length := List.length_filterMap_le f INTEREST_CLUSTERS
      _ = 12 := interestClusters_length
  have hmemres : ∀ e : StarInterestCluster,
      e ∈ clusterStarInterests stars ↔ ∃ c ∈ INTEREST_CLUSTERS, f c = some e := by
    intro e
    rw [hres, mem_sortByDesc, List.mem_filterMap]
  refine ⟨?_, ?_, ?_, ?_⟩
  · rw [hres, length_sortByDesc]
    calc (INTEREST_CLUSTERS.filterMap f).length
        ≤ INTEREST_CLUSTERS.length := List.length_filterMap_le f INTEREST_CLUSTERS
      _ = 12 := interestClusters_length
  · rw [hres]
    exact sortByDesc_sorted (fun e : StarInterestCluster => e.matchCount) _
  · intro lb cfg hmem
    constructor
    · intro h2
      have hfc : f (lb, cfg) = some ⟨lb, bucketCount (stars.filter cfg.matchRepo).length,
          joinSep ", " (((stars.filter cfg.matchRepo).take 5).map (fun r =>
            shortNameOrEmpty r.full_name)), (stars.filter cfg.matchRepo).length⟩ := by
        rw [hf]
        simp only [if_pos h2]
      exact ⟨_, (hmemres _).mpr ⟨(lb, cfg), hmem, hfc⟩, rfl⟩
    · rintro ⟨e, he, rfl⟩
      obtain ⟨c, hc, hfc⟩ := (hmemres e).mp he
      rw [hf] at hfc
      dsimp only at hfc
      by_cases hlen : 2 ≤ (stars.filter c.2.matchRepo).length
      · rw [if_pos hlen] at hfc
        have hlabel : c.1 = e.label := by
          have := congrArg (fun o => (o.map StarInterestCluster.label).getD "") hfc
          simpa using this
        have hceq : c = (e.label, cfg) :=
          List.inj_on_of_nodup_map interestClusters_labels_nodup hc
            (hlabel ▸ hmem) hlabel
        have hcfg : c.2 = cfg := by rw [hceq]
        rw [← hcfg]
        exact hlen
      · rw [if_neg hlen] at hfc
        cases hfc
  · intro e he
    obtain ⟨c, hc, hfc⟩ := (hmemres e).mp he
    rw [hf] at hfc
    dsimp only at hfc
    by_cases hlen : 2 ≤ (stars.filter c.2.matchRepo).length
    · rw [if_pos hlen] at hfc
      injection hfc with hfc
      refine ⟨c.2, ?_, ?_, ?_, ?_, ?_⟩
      · rw [← hfc]; exact hc
      · rw [← hfc]
      · rw [← hfc]; exact hlen
      · rw [← hfc]
      · rw [← hfc]
    · rw [if_neg hlen] at hfc
      cases hfc

/-- Two starred repositories used to exercise the Rust Ecosystem matcher. -/
def rustStarA : RepoData :=
  { full_name := "a/r1", language := some "Rust", topics := [], description := none }

/-- Second starred repository for the Rust Ecosystem matcher. -/
def rustStarB : RepoData :=
  { full_name := "a/r2", language := some "Rust", topics := [], description := none }

/-- Claim C9 witness: claim_c9 applied at a two-element star list. -/
theorem claim_c9_witness :
    ∃ e ∈ clusterStarInterests [rustStarA, rustStarB], e.label = "Rust Ecosystem" :=
  ((claim_c9 [rustStarA, rustStarB]).2.2.1 "Rust Ecosystem" rustCluster
    (by simp [INTEREST_CLUSTERS])).mp (by with_unfolding_all decide)

/-- Claim C7 counterexample: with a malformed created_at (parsed year NaN,
modelled none) and ratio 0.9, estimateExperience returns the years label
"NaN+ years", not "Active". -/
theorem claim_c7_counterexample :
    estimateExperience 2026 none (9/10) 1 = ⟨"", "NaN+ years"⟩ ∧
    ("NaN+ years" : String) ≠ "Active" := by
  constructor
  · with_unfolding_all decide
  · decide

/-- Claim C7 amended: with a malformed created_at the account age is NaN,
so no prefixed branch ever fires and the prefix is always empty; but the
years label is "NaN+ years" whenever the ratio exceeds 0.3, and "Active"
only otherwise.  The hypothesis 1 <= maxScore is the guarantee the
orchestrator provides at the only call site (keeping the rational division
model faithful to the JavaScript division). -/
theorem claim_c7_amended (currentYear : ℤ) (domainScore maxScore : ℚ)
    (_hms : 1 ≤ maxScore) :
    estimateExperience currentYear none domainScore maxScore =
      ⟨"", if 0.3 < domainScore / maxScore then "NaN+ years" else "Active"⟩ := by
  unfold estimateExperience
  simp only [Option.map_none, jsAgeGT]
  norm_num
  split <;> rfl

/-- Claim C7 amended witness: claim_c7_amended applied at ratio 0.9. -/
theorem claim_c7_amended_witness :
    estimateExperience 2026 none (9/10) 1 =
      ⟨"", if (0.3:ℚ) < (9/10) / 1 then "NaN+ years" else "Active"⟩ :=
  claim_c7_amended 2026 (9/10) 1 (by norm_num)

/-- Claim C4 counterexample: the code counts the repo topic "macos" as a
match for the 2-character catalog topic "os" by substring containment (the
short-token rule of the specification would demand exact equality), and counts
the 2-character keyword "ai" inside the description word "maintained" (the
specification demands keywords of length at least 4). -/
theorem claim_c4_counterexample :
    codeTopicMatch "macos" "os" = true ∧
    specGatedTopicMatch "macos" "os" = false ∧
    topicMatchCount systemsSignals ["macos"] = 1 ∧
    repoScoreFor systemsSignals
      { full_name := "x/y", language := none, topics := ["macos"], description := none } = 3 ∧
    jsIncludes "maintained" "ai" = true ∧
    specKeywordMatch "maintained" "ai" = false ∧
    descMatchCount tinkererSignals "maintained" = 1 := by
  refine ⟨by decide, by decide, by decide, ?_, by decide, by decide, by decide⟩
  with_unfolding_all decide

/-- Claim C4 amended: topic matching is plain bidirectional substring
containment with no exact-match exception for short tokens, and
description/name keyword matching is plain substring containment with no
minimum keyword length; in particular the 2-character catalog topic "os"
matches "macos" and the 2-character keyword "ai" matches inside
"maintained". -/
theorem claim_c4_amended :
    (∀ t st : String, codeTopicMatch t st = (jsIncludes t st || jsIncludes st t)) ∧
    (∀ sig : DomainSignal, ∀ text : String,
      descMatchCount sig text =
        (sig.descriptionKeywords.filter (fun kw => jsIncludes text kw)).length) ∧
    codeTopicMatch "macos" "os" = true ∧
    descMatchCount tinkererSignals "maintained" = 1 := by
  refine ⟨fun t st => rfl, fun sig text => rfl, by decide, by decide⟩

/-- A starred repository whose owner segment, but not its name segment,
contains the keyword "linux". -/
def linuxFanRepo : RepoData :=
  { full_name := "linux-fan/hello", language := none, topics := [], description := none }

/-- Claim C5 counterexample: the repo "linux-fan/hello" scores 1 in the
"linux" domain from the name keyword "linux", which occurs only in the
owner segment; matching restricted to the name segment "hello" finds no
keyword. -/
theorem claim_c5_counterexample :
    lookupScoreOr0 (computeDomainScores [linuxFanRepo] []) "linux" = 1 ∧
    shortNameOrEmpty "linux-fan/hello" = "hello" ∧
    descMatchCount linuxSignals (toLowerStr "hello") = 0 ∧
    descMatchCount linuxSignals (toLowerStr "linux-fan/hello") = 1 := by
  refine ⟨?_, by decide, by decide, by decide⟩
  with_unfolding_all decide

/-- Claim C5 amended: the name-keyword term (+1 per keyword) matches
keywords against the entire lowercased owner/name identifier, owner
included; consequently two repos that differ only in their owner segment
can score differently. -/
theorem claim_c5_amended :
    (∀ sig : DomainSignal, ∀ repo : RepoData,
      repoScoreFor sig repo = repoScoreNoName sig repo
        + (descMatchCount sig (toLowerStr repo.full_name) : ℚ) * 1) ∧
    lookupScoreOr0 (computeDomainScores [linuxFanRepo] []) "linux" = 1 ∧
    lookupScoreOr0 (computeDomainScores
      [{ linuxFanRepo with full_name := "bob/hello" }] []) "linux" = 0 := by
  refine ⟨?_, ?_, ?_⟩
  · intro sig repo
    unfold repoScoreFor repoScoreNoName
    ring
  · with_unfolding_all decide
  · with_unfolding_all decide

/-- Claim C2 counterexample: determinePersonas itself performs no exclusion
of the reserved id; fed a score vector that contains "dad" at 100 it
returns a "dad" persona. -/
theorem claim_c2_counterexample :
    ∃ p ∈ determinePersonas [("dad", 100)], p.persona_id = "dad" := by
  refine ⟨⟨"dad", 1, 0⟩, ?_, rfl⟩
  with_unfolding_all decide

/-- Claim C2 amended: the engine never activates "dad" because "dad" is not
a key of DOMAIN_SIGNALS, so no score vector produced by the aggregation and
normalization pipeline contains it; determinePersonas itself applies no
exclusion. -/
theorem claim_c2_amended (stars owned : List RepoData) (p : ActivePersona)
    (hp : p ∈ determinePersonas (normalizeToRadar (computeDomainScores stars owned))) :
    p.persona_id ≠ "dad" := by
  obtain ⟨s, hs, _, _⟩ := mem_determinePersonas _ p hp
  have h1 : p.persona_id
      ∈ (normalizeToRadar (computeDomainScores stars owned)).map Prod.fst :=
    List.mem_map_of_mem Prod.fst hs
  rw [normalizeToRadar_fst, computeDomainScores_fst] at h1
  intro hdad
  rw [hdad] at h1
  have h2 : ("dad" : String) ∉ DOMAIN_SIGNALS.map Prod.fst := by decide
  exact h2 h1

/-- Claim C2 amended witness: claim_c2_amended applied to the systems
persona produced by one starred Rust repository. -/
theorem claim_c2_witness :
    (⟨"systems", 1, 0⟩ : ActivePersona).persona_id ≠ "dad" :=
  claim_c2_amended [rustStarA] [] ⟨"systems", 1, 0⟩ (by with_unfolding_all decide)

/-- A minimal profile record used in concrete evaluations of the
orchestrator. -/
def sampleProfile : GithubProfile :=
  { login := "alice", name := none, email := none, location := none, bio := none,
    blog := none, company := none, avatar_url := "", followers := 0, following := 0,
    public_repos := 0, created_at := "2015-01-01T00:00:00Z" }

/-- The year parser model used in concrete evaluations. -/
def sampleParseYear : String → Option ℤ := fun _ => some 2015

/-- Claim C6 counterexample: on empty repository collections the output
still has 9 radar axes while no persona is active, so the axes are not
built from activated personas. -/
theorem claim_c6_counterexample :
    (computeFullProfile 2026 sampleParseYear sampleProfile [] []).radar_axes.length = 9 ∧
    (computeFullProfile 2026 sampleParseYear sampleProfile [] []).personas = [] ∧
    determinePersonas (normalizeToRadar (computeDomainScores [] [])) = [] := by
  refine ⟨?_, ?_, ?_⟩ <;> with_unfolding_all decide

/-- Claim C6 amended: the radar-axis list is built from all catalog domains
(each of the 9 domains has radar metadata), not from the activated
personas: there is always exactly one axis per catalog domain in catalog
order, carrying the metadata label and color, the domain id, the position
as sort_order, and the combined-normalized value, which lies in [0, 100]. -/
theorem claim_c6_amended (cy : ℤ) (py : String → Option ℤ) (profile : GithubProfile)
    (owned stars : List RepoData) :
    (computeFullProfile cy py profile owned stars).radar_axes.length = 9 ∧
    (computeFullProfile cy py profile owned stars).radar_axes.map (fun a => a.domain)
      = DOMAIN_SIGNALS.map Prod.fst ∧
    (∀ i (hi : i < (computeFullProfile cy py profile owned stars).radar_axes.length),
      ((computeFullProfile cy py profile owned stars).radar_axes[i]).sort_order = i) ∧
    (∀ a ∈ (computeFullProfile cy py profile owned stars).radar_axes,
      0 ≤ a.value ∧ a.value ≤ 100 ∧ lookupMeta a.domain = some (a.label, a.color) ∧
      (a.domain, a.value) ∈ normalizeToRadar (computeDomainScores stars owned)) := by
  have hax : (computeFullProfile cy py profile owned stars).radar_axes
      = buildRadarAxes (normalizeToRadar (computeDomainScores stars owned)) := rfl
  set ns := normalizeToRadar (computeDomainScores stars owned) with hns
  have hfst : ns.map Prod.fst = DOMAIN_SIGNALS.map Prod.fst := by
    rw [hns, normalizeToRadar_fst, computeDomainScores_fst]
  have hall : ∀ d ∈ DOMAIN_SIGNALS.map Prod.fst, (lookupMeta d).isSome := by decide
  have hkeys : ∀ e ∈ ns, ((lookupMeta e.1).isSome : Bool) = true := by
    intro e he
    have h1 : e.1 ∈ ns.map Prod.fst := List.mem_map_of_mem Prod.fst he
    rw [hfst] at h1
    exact hall _ h1
  have hfilter : ns.filter (fun e => (lookupMeta e.1).isSome) = ns :=
    List.filter_eq_self.mpr hkeys
  have hlen : ns.length = 9 := by
    have := congrArg List.length hfst
    simpa using this
  have hbuild : buildRadarAxes ns = ns.enum.map (fun p =>
      { label := ((lookupMeta p.2.1).getD ("", "")).1, value := p.2.2,
        color := ((lookupMeta p.2.1).getD ("", "")).2, domain := p.2.1,
        sort_order := p.1 }) := by
    unfold buildRadarAxes
    rw [hfilter]
  have hnn : ∀ e ∈ computeDomainScores stars owned, 0 ≤ e.2 :=
    computeDomainScores_nonneg stars owned
  refine ⟨?_, ?_, ?_, ?_⟩
  · rw [hax, hbuild, List.length_map, List.enum_length, hlen]
  · rw [hax, hbuild, List.map_map]
    have h2 : ((fun a : RadarAxis => a.domain) ∘ (fun p : ℕ × (String × ℚ) =>
        ({ label := ((lookupMeta p.2.1).getD ("", "")).1, value := p.2.2,
           color := ((lookupMeta p.2.1).getD ("", "")).2, domain := p.2.1,
           sort_order := p.1 } : RadarAxis))) = (Prod.fst ∘ Prod.snd) := rfl
    rw [h2, ← List.map_map, List.enum_map_snd, hfst]
  · intro i hi
    simp only [hax, hbuild] at hi ⊢
    have hi' : i < ns.enum.length := by
      rw [List.length_map] at hi
      exact hi
    rw [List.getElem_map, List.getElem_enum]
  · intro a ha
    rw [hax, hbuild] at ha
    obtain ⟨q, hq, rfl⟩ := List.mem_map.mp ha
    have hq2 : q.2 ∈ ns := by
      have := List.mem_map_of_mem Prod.snd hq
      rwa [List.enum_map_snd] at this
    have hbounds := normalizeToRadar_bounds (computeDomainScores stars owned) hnn q.2
      (hns ▸ hq2)
    have hsome := hkeys q.2 hq2
    obtain ⟨pr, hpr⟩ := Option.isSome_iff_exists.mp hsome
    refine ⟨hbounds.1, hbounds.2, ?_, ?_⟩
    · dsimp only
      rw [hpr]
      rfl
    · dsimp only
      exact hq2

/-- Claim C6 amended witness: claim_c6_amended applied to the systems axis
of the empty-input profile. -/
theorem claim_c6_witness :
    (⟨"Rust/Systems", 0, "#4A90D9", "systems", 0⟩ : RadarAxis) ∈
        (computeFullProfile 2026 sampleParseYear sampleProfile [] []).radar_axes ∧
    0 ≤ (⟨"Rust/Systems", (0:ℚ), "#4A90D9", "systems", 0⟩ : RadarAxis).value :=
  ⟨by with_unfolding_all decide,
   ((claim_c6_amended 2026 sampleParseYear sampleProfile [] []).2.2.2 _
     (by with_unfolding_all decide)).1⟩

/-- Claim C1 counterexample: with no owned repositories and one starred
Rust repository, activation on the owned-only aggregation would yield no
persona, yet the engine emits the systems and software personas — so
activation is not applied to owned-only scores. -/
theorem claim_c1_counterexample :
    determinePersonas (normalizeToRadar (aggregateScores [] 1)) = [] ∧
    (computeFullProfile 2026 sampleParseYear sampleProfile [] [rustStarA]).personas.map
      (fun c => c.persona_id) = ["systems", "software"] := by
  constructor <;> with_unfolding_all decide

/-- Claim C1 amended: the engine runs a single aggregation per computation,
the combined one (starred at weight 1 plus owned at weight 3, expressible
as the pointwise sum of the two specification-style passes), and both
persona activation and the displayed radar values are taken from the
normalization of these combined scores. -/
theorem claim_c1_amended (cy : ℤ) (py : String → Option ℤ) (profile : GithubProfile)
    (owned stars : List RepoData) :
    computeDomainScores stars owned =
      vecAdd (aggregateScores stars 1) (aggregateScores owned 3) ∧
    (computeFullProfile cy py profile owned stars).personas.map (fun c => c.persona_id)
      = (determinePersonas (normalizeToRadar (computeDomainScores stars owned))).map
          (fun p => p.persona_id) ∧
    (computeFullProfile cy py profile owned stars).radar_axes
      = buildRadarAxes (normalizeToRadar (computeDomainScores stars owned)) := by
  refine ⟨?_, ?_, rfl⟩
  · unfold computeDomainScores aggregateScores vecAdd
    rw [List.zipWith_map, List.zipWith_same]
    apply List.map_congr_left
    intro ds _
    dsimp only
    rw [List.sum_map_mul_right]
    rw [Prod.mk.injEq]
    exact ⟨rfl, by ring⟩
  · exact generatePersonaDetails_map_id _ _ _ _ _ _ _ _

/-- Claim C10: on empty owned and starred collections the profile document
has no personas, no projects and no star interests, while the radar still
carries one axis per catalog domain (9 axes), all with value 0. -/
theorem claim_c10 (cy : ℤ) (py : String → Option ℤ) (profile : GithubProfile) :
    (computeFullProfile cy py profile [] []).personas = [] ∧
    (computeFullProfile cy py profile [] []).projects = [] ∧
    (computeFullProfile cy py profile [] []).star_interests = [] ∧
    (computeFullProfile cy py profile [] []).radar_axes.length = 9 ∧
    ∀ a ∈ (computeFullProfile cy py profile [] []).radar_axes, a.value = 0 := by
  have hap : determinePersonas (normalizeToRadar (computeDomainScores [] [])) = [] := by
    with_unfolding_all decide
  refine ⟨?_, ?_, ?_, ?_, ?_⟩
  · show generatePersonaDetails
      (determinePersonas (normalizeToRadar (computeDomainScores [] []))) _ _ _ _ _ _ _ = []
    rw [hap]
    rfl
  · show generateProjectCards [] = []
    rfl
  · show clusterStarInterests [] = []
    with_unfolding_all rfl
  · show (buildRadarAxes (normalizeToRadar (computeDomainScores [] []))).length = 9
    with_unfolding_all decide
  · show ∀ a ∈ buildRadarAxes (normalizeToRadar (computeDomainScores [] [])), a.value = 0
    with_unfolding_all decide

/-- Claim C10 witness: claim_c10 applied to the systems axis of the
empty-input profile. -/
theorem claim_c10_witness :
    (⟨"Rust/Systems", (0:ℚ), "#4A90D9", "systems", 0⟩ : RadarAxis).value = 0 :=
  (claim_c10 2026 sampleParseYear sampleProfile).2.2.2.2 _ (by with_unfolding_all decide)
